import Mathlib

/-!
Verification of the Source Registry and Schema Reflection subsystem of the
dwata backend, shallowly embedded from `backend/utils/settings.py`
(`get_all_sources`, `get_source_settings`) and
`old_project/backend/apps/tables/workers.py` (`refresh`).

Modelling conventions:
- Python dicts that the core iterates or indexes become association lists
  (`List (String × _)`), preserving insertion/enumeration order as Python
  dicts do; lookup by key is first-match (`List.lookup`), matching unique-key
  dicts.
- Python's heterogeneous source rows `[label, "database", scheme, {}]`
  (four elements) and `[label, "service", sname]` (three elements) become the
  `SourceDescriptor` structure; the fourth element is `attributes : Option _`,
  with `none` encoding the row that has no fourth element.
- Raising an exception is modelled by an `Err`-carrying outcome; each `Err`
  constructor names the specification's error taxonomy entry and is documented
  with the concrete Python exception site it corresponds to.
- Wall-clock time (`datetime.utcnow()`) is abstracted as a `now : Nat`
  parameter recorded into `created_at`.
-/

/-- One entry of the `settings.DATABASES` section: a connection descriptor
with (at least) a `db_url` field; the core reads only `db_url`. The Settings
Provider itself (`utils.config.get_settings`) is an external collaborator, so
settings are passed as an explicit value. -/
structure DbEntry where
  db_url : String
deriving DecidableEq

/-- State of the external Settings Provider, as consumed by this core:
`databases` models the `settings.DATABASES` section (label to connection
descriptor, in enumeration order); `services` models, for each service kind
name `sname` drawn from `all_services.keys()` for which
`hasattr(settings, sname.upper())` holds, the section
`getattr(settings, sname.upper())` (label to opaque settings value, modelled
as `String`), in `all_services` iteration order. The bijective upper-casing
of section names is collapsed into keying by `sname` itself. -/
structure Settings where
  databases : List (String × DbEntry)
  services : List (String × List (String × String))
deriving DecidableEq

/-- One registry row built by `get_all_sources`. Python builds plain lists:
database rows are `[label, "database", scheme, {}]` or the synthetic
`["dwata_meta", "database", "sqlite", {"is_system_db": True}]` (four
elements, `attributes = some _`), while service rows are
`[label, "service", sname]` (three elements, encoded `attributes = none`).
The attribute dicts occurring in the source have only Boolean values. -/
structure SourceDescriptor where
  label : String
  kind : String
  subtype : String
  attributes : Option (List (String × Bool))
deriving DecidableEq

/-- Scheme component extracted by `urllib.parse.urlparse(url).scheme`: the
text before the first colon (empty when no colon is present; urlparse's
extra validation and lower-casing do not matter for the inputs used here). -/
def urlScheme (url : String) : String :=
  if url.data.contains ':' then (url.data.takeWhile (fun c => c ≠ ':')).asString
  else ""

/-- Database registry row derived from one `settings.DATABASES` item:
`[label, "database", urlparse(value["db_url"]).scheme, {}]`. -/
def dbDescriptor (p : String × DbEntry) : SourceDescriptor :=
  ⟨p.1, "database", urlScheme p.2.db_url, some []⟩

/-- The synthetic system database row appended unconditionally:
`["dwata_meta", "database", "sqlite", {"is_system_db": True}]`. -/
def dwataMetaDescriptor : SourceDescriptor :=
  ⟨"dwata_meta", "database", "sqlite", some [("is_system_db", true)]⟩

/-- Operation `get_all_sources` from `backend/utils/settings.py`: the database rows in
Settings-Provider order, then the synthetic `dwata_meta` row, then one
service row per entry of each present service section. -/
def get_all_sources (settings : Settings) : List SourceDescriptor :=
  (settings.databases.map dbDescriptor ++ [dwataMetaDescriptor])
    ++ settings.services.flatMap
        (fun sec => sec.2.map (fun p => ⟨p.1, "service", sec.1, none⟩))

/-- Error taxonomy of the specification; each constructor is tagged with the
Python exception site it models in the source. -/
inductive Err where
  /-- Failure of `get_settings()` itself (broken Settings Provider). -/
  | settingsFailure
  /-- NotFound: the `[x for x in all_sources if x[0] == source_label][0]`
  lookup inside `get_source_settings` raises IndexError on an empty match. -/
  | notFound
  /-- UnknownSource: the same list-and-index lookup inside `refresh` raises
  IndexError for a label absent from the registry. -/
  | unknownSource
  /-- MissingDataSourceRecord: `data_source["id"]` raises TypeError inside
  the insert loop because `fetch_one` returned None. -/
  | missingDataSourceRecord
  /-- A dict subscript on a missing key raises KeyError. -/
  | keyError
  /-- Access `getattr(settings, ...)` on a missing section raises AttributeError. -/
  | attributeError
deriving DecidableEq

/-- Raw connection settings returned by `get_source_settings`: the full
`settings.DATABASES[label]` dict for a database label (or the hardcoded
`{"db_url": "sqlite:///dwata_meta.db"}`), the opaque service-section entry
for a service label, and Python's implicit `None` fall-through when the kind
matches neither branch. -/
inductive SrcSettings where
  | db (entry : DbEntry)
  | svc (value : String)
  | pyNone
deriving DecidableEq

deriving instance DecidableEq for Except

/-- Operation `get_source_settings` from `backend/utils/settings.py`. The Settings
Provider is passed as `Option Settings` (`none` = `get_settings()` would
fail); the `"dwata_meta"` branch returns before the provider is consulted. -/
def get_source_settings (os : Option Settings) (source_label : String) :
    Except Err SrcSettings :=
  if source_label = "dwata_meta" then
    .ok (.db ⟨"sqlite:///dwata_meta.db"⟩)
  else
    match os with
    | none => .error .settingsFailure
    | some settings =>
      match ((get_all_sources settings).filter
          (fun x => x.label = source_label)).head? with
      | none => .error .notFound
      | some requested_source =>
        if requested_source.kind = "database" then
          match settings.databases.lookup requested_source.label with
          | some v => .ok (.db v)
          | none => .error .keyError
        else if requested_source.kind = "service" then
          match settings.services.lookup requested_source.subtype with
          | none => .error .attributeError
          | some sec =>
            match sec.lookup requested_source.label with
            | some v => .ok (.svc v)
            | none => .error .keyError
        else
          .ok .pyNone

/-- Modelled from the spec: Metadata Store row of `apps.data_sources.models`
(the models module is an external collaborator, not under the sources given):
one persisted record per configured database source, with a store-assigned
surrogate `id` and the source `label`. -/
structure DataSourceRecord where
  id : Nat
  label : String
deriving DecidableEq

/-- TableRecord persisted by the insert in `refresh`:
`data_source_id`, `table_name`, `attributes=[]`, `created_at`. -/
structure TableRecord where
  data_source_id : Nat
  table_name : String
  attributes : List String
  created_at : Nat
deriving DecidableEq

/-- Modelled from the spec: the Metadata Store (`dwata_meta_db` with the
`data_sources` and `tables` tables, external storage collaborator). Rows in
insertion order; `fetch_one(select.where(label == L))` is first-match lookup
and `execute(insert.values(...))` appends a row. -/
structure MetaStore where
  data_sources : List DataSourceRecord
  tables : List TableRecord
deriving DecidableEq

/-- Modelled from the spec: the Connection Resolver contract
(`database.connect.connect_database` plus SQLAlchemy reflection, external
collaborators): a live world mapping each connection URL to the table names
its default schema enumerates. Connections are assumed reachable. -/
structure World where
  tables_by_url : List (String × List String)
deriving DecidableEq

/-- Table names enumerated over the live connection for `db_url`
(`MetaData(bind=engine).reflect()` then `meta.tables.items()`). -/
def enumerate_tables (w : World) (db_url : String) : List String :=
  (w.tables_by_url.lookup db_url).getD []

/-- Outcome of one `refresh` call: the returned `{"status": "success"}`, the
returned `False` (non-database label), or a propagated exception. -/
inductive RunResult where
  | success
  | failure
  | exn (e : Err)
deriving DecidableEq

/-- The per-table insert loop of `refresh`: for each enumerated name, build
`tables.insert().values(data_source_id=data_source["id"], ...)` and execute
it. `data_source["id"]` is evaluated in every iteration, so a `None` record
raises (TypeError, the MissingDataSourceRecord failure) at the first
iteration; rows already executed persist (no transaction). Returns the
accumulated `tables` rows and the error, if one was raised. -/
def insertLoop (data_source : Option DataSourceRecord) (now : Nat) :
    List String → List TableRecord → List TableRecord × Option Err
  | [], acc => (acc, none)
  | name :: rest, acc =>
    match data_source with
    | none => (acc, some .missingDataSourceRecord)
    | some ds => insertLoop data_source now rest (acc ++ [⟨ds.id, name, [], now⟩])

/-- Body of `refresh` from `old_project/backend/apps/tables/workers.py`,
processing the labels sequentially against the registry snapshot
`all_sources`. Threads the Metadata Store and a connection log recording,
for each connection opened, its URL and whether `conn.close()` ran
(`conn.close()` is placed after the insert loop with no try/finally, so a
loop failure leaves the entry unclosed and aborts the remaining labels). -/
def refreshGo (settings : Settings) (w : World) (now : Nat)
    (all_sources : List SourceDescriptor) :
    List String → MetaStore → List (String × Bool) →
    MetaStore × List (String × Bool) × RunResult
  | [], st, log => (st, log, .success)
  | source_label :: rest, st, log =>
    match ((all_sources.filter (fun x => x.label = source_label)).head?) with
    | none => (st, log, .exn .unknownSource)
    | some requested_source =>
      match get_source_settings (some settings) source_label with
      | .error e => (st, log, .exn e)
      | .ok source_settings =>
        if requested_source.kind ≠ "database" then
          (st, log, .failure)
        else
          match source_settings with
          | .db entry =>
            let data_source :=
              st.data_sources.find? (fun r => r.label = source_label)
            let names := enumerate_tables w entry.db_url
            match insertLoop data_source now names st.tables with
            | (tbls, some e) =>
              (⟨st.data_sources, tbls⟩, log ++ [(entry.db_url, false)], .exn e)
            | (tbls, none) =>
              refreshGo settings w now all_sources rest
                ⟨st.data_sources, tbls⟩ (log ++ [(entry.db_url, true)])
          | _ => (st, log, .exn .keyError)

/-- Operation `refresh(source_label_list)` from
`old_project/backend/apps/tables/workers.py`: takes one registry snapshot
(`all_sources = await get_all_sources()`), then processes the labels in
order. Returns the final Metadata Store, the connection log, and the
outcome. -/
def refresh (settings : Settings) (w : World) (now : Nat)
    (source_label_list : List String) (st : MetaStore) :
    MetaStore × List (String × Bool) × RunResult :=
  refreshGo settings w now (get_all_sources settings) source_label_list st []

/-! ## Helper lemmas -/

/-- With an existing DataSourceRecord the insert loop appends one row per
enumerated name and raises nothing. -/
theorem insertLoop_some (ds : DataSourceRecord) (now : Nat) :
    ∀ (names : List String) (acc : List TableRecord),
      insertLoop (some ds) now names acc =
        (acc ++ names.map (fun n => ⟨ds.id, n, [], now⟩), none) := by
  intro names
  induction names with
  | nil => intro acc; simp [insertLoop]
  | cons n rest ih => intro acc; simp [insertLoop, ih]

/-- A single-label refresh of a resolvable database label whose
DataSourceRecord exists appends one TableRecord per enumerated table, closes
the connection and reports success. -/
theorem refresh_single_success (settings : Settings) (w : World) (now : Nat)
    (L : String) (st : MetaStore) (d : SourceDescriptor) (u : String)
    (ds : DataSourceRecord)
    (h1 : ((get_all_sources settings).filter
        (fun x => x.label = L)).head? = some d)
    (h2 : d.kind = "database")
    (h3 : get_source_settings (some settings) L = .ok (.db ⟨u⟩))
    (h4 : st.data_sources.find? (fun r => r.label = L) = some ds) :
    refresh settings w now [L] st =
      (⟨st.data_sources,
        st.tables ++ (enumerate_tables w u).map (fun n => ⟨ds.id, n, [], now⟩)⟩,
       [(u, true)], .success) := by
  simp [refresh, refreshGo, h1, h2, h3, h4, insertLoop_some]

/-! ## C1 -/

/-- C1: for a label `L` whose DataSourceRecord already exists and whose
resolved database connection enumerates exactly the tables `["a", "b"]`,
`refresh [L]` inserts exactly two TableRecords, one per enumerated name,
each carrying that record's id as `data_source_id` and empty attributes. -/
theorem c1_refresh_inserts_two_records (settings : Settings) (w : World)
    (now : Nat) (L : String) (st : MetaStore) (d : SourceDescriptor)
    (u : String) (ds : DataSourceRecord)
    (h1 : ((get_all_sources settings).filter
        (fun x => x.label = L)).head? = some d)
    (h2 : d.kind = "database")
    (h3 : get_source_settings (some settings) L = .ok (.db ⟨u⟩))
    (h4 : st.data_sources.find? (fun r => r.label = L) = some ds)
    (h5 : enumerate_tables w u = ["a", "b"]) :
    refresh settings w now [L] st =
      (⟨st.data_sources,
        st.tables ++ [⟨ds.id, "a", [], now⟩, ⟨ds.id, "b", [], now⟩]⟩,
       [(u, true)], .success) := by
  rw [refresh_single_success settings w now L st d u ds h1 h2 h3 h4, h5]
  rfl

/-- Witness for C1 at a concrete Settings Provider, live world and store. -/
theorem c1_witness :
    refresh ⟨[("sales", ⟨"postgres://h/sdb"⟩)], []⟩
        ⟨[("postgres://h/sdb", ["a", "b"])]⟩ 7 ["sales"] ⟨[⟨1, "sales"⟩], []⟩ =
      (⟨[⟨1, "sales"⟩], [⟨1, "a", [], 7⟩, ⟨1, "b", [], 7⟩]⟩,
       [("postgres://h/sdb", true)], .success) :=
  c1_refresh_inserts_two_records ⟨[("sales", ⟨"postgres://h/sdb"⟩)], []⟩
    ⟨[("postgres://h/sdb", ["a", "b"])]⟩ 7 "sales" ⟨[⟨1, "sales"⟩], []⟩
    ⟨"sales", "database", "postgres", some []⟩ "postgres://h/sdb" ⟨1, "sales"⟩
    rfl rfl rfl rfl rfl

/-! ## C3 -/

/-- C3: for a label absent from the registry, `refresh [L]` fails with
UnknownSource and leaves the Metadata Store unchanged. -/
theorem c3_unknown_label_fails_store_unchanged (settings : Settings)
    (w : World) (now : Nat) (L : String) (st : MetaStore)
    (h : (get_all_sources settings).filter (fun x => x.label = L) = []) :
    refresh settings w now [L] st = (st, [], .exn .unknownSource) := by
  simp [refresh, refreshGo, h]

/-- Witness for C3: refreshing a label no source carries. -/
theorem c3_witness :
    refresh ⟨[("sales", ⟨"postgres://h/sdb"⟩)], []⟩ ⟨[]⟩ 0 ["nope"]
        ⟨[⟨1, "sales"⟩], []⟩ =
      (⟨[⟨1, "sales"⟩], []⟩, [], .exn .unknownSource) :=
  c3_unknown_label_fails_store_unchanged ⟨[("sales", ⟨"postgres://h/sdb"⟩)], []⟩
    ⟨[]⟩ 0 "nope" ⟨[⟨1, "sales"⟩], []⟩ rfl

/-! ## C5 -/

/-- C5: when the first label of a batch resolves to a Service descriptor,
the whole refresh run returns the failure value before any work on the
second label: no TableRecord is inserted for either label and no connection
is opened. -/
theorem c5_service_label_aborts_batch (settings : Settings) (w : World)
    (now : Nat) (L M : String) (st : MetaStore) (d : SourceDescriptor)
    (v : SrcSettings)
    (h1 : ((get_all_sources settings).filter
        (fun x => x.label = L)).head? = some d)
    (h2 : d.kind = "service")
    (h3 : get_source_settings (some settings) L = .ok v) :
    refresh settings w now [L, M] st = (st, [], .failure) := by
  simp [refresh, refreshGo, h1, h2, h3]

/-- Witness for C5: a configured service label followed by a database
label whose DataSourceRecord exists; nothing is inserted for either. -/
theorem c5_witness :
    refresh ⟨[("m", ⟨"postgres://h/m"⟩)], [("superset", [("svc1", "cfg")])]⟩
        ⟨[("postgres://h/m", ["a"])]⟩ 0 ["svc1", "m"] ⟨[⟨1, "m"⟩], []⟩ =
      (⟨[⟨1, "m"⟩], []⟩, [], .failure) :=
  c5_service_label_aborts_batch
    ⟨[("m", ⟨"postgres://h/m"⟩)], [("superset", [("svc1", "cfg")])]⟩
    ⟨[("postgres://h/m", ["a"])]⟩ 0 "svc1" "m" ⟨[⟨1, "m"⟩], []⟩
    ⟨"svc1", "service", "superset", none⟩ (.svc "cfg") rfl rfl rfl

/-! ## C6 -/

/-- C6: two successive refreshes of the same database label against an
unchanged source append the per-run rows twice: insertion is append-only
with no existence check, so the TableRecord count grows by twice the table
count of one run. -/
theorem c6_double_refresh_doubles_records (settings : Settings) (w : World)
    (now₁ now₂ : Nat) (L : String) (st : MetaStore) (d : SourceDescriptor)
    (u : String) (ds : DataSourceRecord)
    (h1 : ((get_all_sources settings).filter
        (fun x => x.label = L)).head? = some d)
    (h2 : d.kind = "database")
    (h3 : get_source_settings (some settings) L = .ok (.db ⟨u⟩))
    (h4 : st.data_sources.find? (fun r => r.label = L) = some ds) :
    (refresh settings w now₂ [L] (refresh settings w now₁ [L] st).1).1.tables =
      st.tables
        ++ (enumerate_tables w u).map (fun n => ⟨ds.id, n, [], now₁⟩)
        ++ (enumerate_tables w u).map (fun n => ⟨ds.id, n, [], now₂⟩) ∧
    (refresh settings w now₂ [L] (refresh settings w now₁ [L] st).1).1.tables.length =
      st.tables.length + 2 * (enumerate_tables w u).length := by
  have e1 := refresh_single_success settings w now₁ L st d u ds h1 h2 h3 h4
  have e2 := refresh_single_success settings w now₂ L
    ⟨st.data_sources,
      st.tables ++ (enumerate_tables w u).map (fun n => ⟨ds.id, n, [], now₁⟩)⟩
    d u ds h1 h2 h3 h4
  rw [e1]
  constructor
  · rw [show (((⟨st.data_sources,
        st.tables ++ (enumerate_tables w u).map (fun n => ⟨ds.id, n, [], now₁⟩)⟩ :
          MetaStore), ([(u, true)] : List (String × Bool)),
        RunResult.success)).1 = ⟨st.data_sources,
        st.tables ++ (enumerate_tables w u).map (fun n => ⟨ds.id, n, [], now₁⟩)⟩
      from rfl, e2]
  · rw [show (((⟨st.data_sources,
        st.tables ++ (enumerate_tables w u).map (fun n => ⟨ds.id, n, [], now₁⟩)⟩ :
          MetaStore), ([(u, true)] : List (String × Bool)),
        RunResult.success)).1 = ⟨st.data_sources,
        st.tables ++ (enumerate_tables w u).map (fun n => ⟨ds.id, n, [], now₁⟩)⟩
      from rfl, e2]
    simp only [List.length_append, List.length_map]
    omega

/-- Witness for C6 at a concrete source with one table: the second run
leaves two copies of the reflected row. -/
theorem c6_witness :
    (refresh ⟨[("sales", ⟨"postgres://h/sdb"⟩)], []⟩
          ⟨[("postgres://h/sdb", ["a"])]⟩ 2 ["sales"]
          (refresh ⟨[("sales", ⟨"postgres://h/sdb"⟩)], []⟩
            ⟨[("postgres://h/sdb", ["a"])]⟩ 1 ["sales"]
            ⟨[⟨1, "sales"⟩], []⟩).1).1.tables =
      ([] : List TableRecord) ++ [⟨1, "a", [], 1⟩] ++ [⟨1, "a", [], 2⟩] ∧
    (refresh ⟨[("sales", ⟨"postgres://h/sdb"⟩)], []⟩
          ⟨[("postgres://h/sdb", ["a"])]⟩ 2 ["sales"]
          (refresh ⟨[("sales", ⟨"postgres://h/sdb"⟩)], []⟩
            ⟨[("postgres://h/sdb", ["a"])]⟩ 1 ["sales"]
            ⟨[⟨1, "sales"⟩], []⟩).1).1.tables.length =
      ([] : List TableRecord).length + 2 * 1 :=
  c6_double_refresh_doubles_records ⟨[("sales", ⟨"postgres://h/sdb"⟩)], []⟩
    ⟨[("postgres://h/sdb", ["a"])]⟩ 1 2 "sales" ⟨[⟨1, "sales"⟩], []⟩
    ⟨"sales", "database", "postgres", some []⟩ "postgres://h/sdb" ⟨1, "sales"⟩
    rfl rfl rfl rfl

/-! ## C8 -/

/-- C8: `get_source_settings` on the label `"dwata_meta"` returns the fixed
system database descriptor for every state of the Settings Provider,
including a broken one (`none`), and so never depends on the provider. -/
theorem c8_dwata_meta_settings_independent (os₁ os₂ : Option Settings) :
    get_source_settings os₁ "dwata_meta" =
      .ok (.db ⟨"sqlite:///dwata_meta.db"⟩) ∧
    get_source_settings os₁ "dwata_meta" =
      get_source_settings os₂ "dwata_meta" :=
  ⟨rfl, rfl⟩

/-! ## C2 -/

/-- Counterexample to C2 as stated: a Settings Provider whose Database
section itself uses the key `"dwata_meta"` yields a registry carrying that
label twice, not exactly once. -/
theorem c2_counterexample :
    ((get_all_sources ⟨[("dwata_meta", ⟨"postgres://h/x"⟩)], []⟩).filter
        (fun d => d.label = "dwata_meta")).length ≠ 1 := by
  decide

/-- C2 amended: the synthetic `dwata_meta` descriptor, of kind Database and
with `is_system_db` true, is always present; it is the unique descriptor
with that label provided no configured section itself uses the label
`"dwata_meta"`. -/
theorem c2_amended_dwata_meta_unique (settings : Settings)
    (hdb : ∀ p ∈ settings.databases, p.1 ≠ "dwata_meta")
    (hsvc : ∀ sec ∈ settings.services, ∀ q ∈ sec.2, q.1 ≠ "dwata_meta") :
    dwataMetaDescriptor ∈ get_all_sources settings ∧
    (get_all_sources settings).filter (fun d => d.label = "dwata_meta")
      = [dwataMetaDescriptor] ∧
    dwataMetaDescriptor.kind = "database" ∧
    dwataMetaDescriptor.attributes = some [("is_system_db", true)] := by
  refine ⟨by simp [get_all_sources], ?_, rfl, rfl⟩
  rw [get_all_sources, List.filter_append, List.filter_append]
  have hA : (settings.databases.map dbDescriptor).filter
      (fun d => d.label = "dwata_meta") = [] := by
    rw [List.filter_eq_nil_iff]
    intro a ha
    rcases List.mem_map.mp ha with ⟨p, hp, rfl⟩
    simp [dbDescriptor, hdb p hp]
  have hB : (settings.services.flatMap
      (fun sec => sec.2.map
        (fun p => (⟨p.1, "service", sec.1, none⟩ : SourceDescriptor)))).filter
      (fun d => d.label = "dwata_meta") = [] := by
    rw [List.filter_eq_nil_iff]
    intro a ha
    rcases List.mem_flatMap.mp ha with ⟨sec, hsec, hmem⟩
    rcases List.mem_map.mp hmem with ⟨q, hq, rfl⟩
    simp [hsvc sec hsec q hq]
  rw [hA, hB]
  simp [dwataMetaDescriptor]

/-- Witness for C2 at a Settings Provider with one database and one service,
neither labelled `"dwata_meta"`. -/
theorem c2_witness :
    dwataMetaDescriptor ∈
      get_all_sources ⟨[("sales", ⟨"postgres://h/x"⟩)],
        [("superset", [("sup1", "cfg")])]⟩ ∧
    (get_all_sources ⟨[("sales", ⟨"postgres://h/x"⟩)],
        [("superset", [("sup1", "cfg")])]⟩).filter
        (fun d => d.label = "dwata_meta")
      = [dwataMetaDescriptor] ∧
    dwataMetaDescriptor.kind = "database" ∧
    dwataMetaDescriptor.attributes = some [("is_system_db", true)] :=
  c2_amended_dwata_meta_unique
    ⟨[("sales", ⟨"postgres://h/x"⟩)], [("superset", [("sup1", "cfg")])]⟩
    (by decide) (by decide)

/-! ## C9 -/

/-- Counterexample to C9 as stated: with a configured service, the registry
contains a descriptor with no attributes component (the service rows are
three-element `[label, "service", sname]` lists). -/
theorem c9_counterexample :
    ¬ ∀ d ∈ get_all_sources ⟨[], [("superset", [("sup1", "cfg")])]⟩,
        d.attributes.isSome = true := by
  decide

/-- C9 amended: every Database descriptor (configured or synthetic) carries
an attributes mapping as its fourth component, while every Service
descriptor is a three-component row without one. -/
theorem c9_amended_service_rows_lack_attributes (settings : Settings)
    (d : SourceDescriptor) (h : d ∈ get_all_sources settings) :
    (d.kind = "database" ∧ d.attributes.isSome = true) ∨
    (d.kind = "service" ∧ d.attributes = none) := by
  rw [get_all_sources] at h
  rcases List.mem_append.mp h with h | h
  · rcases List.mem_append.mp h with h | h
    · rcases List.mem_map.mp h with ⟨p, _, rfl⟩
      exact Or.inl ⟨rfl, rfl⟩
    · have hd := List.mem_singleton.mp h
      subst hd
      exact Or.inl ⟨rfl, rfl⟩
  · rcases List.mem_flatMap.mp h with ⟨sec, _, hmem⟩
    rcases List.mem_map.mp hmem with ⟨q, _, rfl⟩
    exact Or.inr ⟨rfl, rfl⟩

/-- Witness for C9 at the configured-service registry row. -/
theorem c9_witness :
    ((SourceDescriptor.kind ⟨"sup1", "service", "superset", none⟩ = "database" ∧
      (SourceDescriptor.attributes
        ⟨"sup1", "service", "superset", none⟩).isSome = true) ∨
     (SourceDescriptor.kind ⟨"sup1", "service", "superset", none⟩ = "service" ∧
      SourceDescriptor.attributes ⟨"sup1", "service", "superset", none⟩
        = none)) :=
  c9_amended_service_rows_lack_attributes
    ⟨[], [("superset", [("sup1", "cfg")])]⟩
    ⟨"sup1", "service", "superset", none⟩ (by decide)

/-! ## C4 -/

/-- Counterexample to C4 as stated: with no DataSourceRecord for the label
and a connection enumerating zero tables, `refresh` reports success (the
record lookup result is only dereferenced inside the per-table loop, which
never runs). -/
theorem c4_counterexample :
    ((⟨[], []⟩ : MetaStore).data_sources.find?
        (fun r => r.label = "sales") = none) ∧
    refresh ⟨[("sales", ⟨"postgres://h/x"⟩)], []⟩ ⟨[("postgres://h/x", [])]⟩ 0
        ["sales"] ⟨[], []⟩
      = (⟨[], []⟩, [("postgres://h/x", true)], .success) := by
  decide

/-- C4 amended: with no DataSourceRecord for a resolvable database label,
`refresh` never inserts a TableRecord for it; it fails with
MissingDataSourceRecord when the connection enumerates at least one table,
but reports success when it enumerates none. -/
theorem c4_missing_record_behaviour (settings : Settings) (w : World)
    (now : Nat) (L : String) (st : MetaStore) (d : SourceDescriptor)
    (u : String)
    (h1 : ((get_all_sources settings).filter
        (fun x => x.label = L)).head? = some d)
    (h2 : d.kind = "database")
    (h3 : get_source_settings (some settings) L = .ok (.db ⟨u⟩))
    (h4 : st.data_sources.find? (fun r => r.label = L) = none) :
    (refresh settings w now [L] st).1.tables = st.tables ∧
    (enumerate_tables w u = [] →
      refresh settings w now [L] st = (st, [(u, true)], .success)) ∧
    (∀ n ns, enumerate_tables w u = n :: ns →
      refresh settings w now [L] st
        = (st, [(u, false)], .exn .missingDataSourceRecord)) := by
  refine ⟨?_, ?_, ?_⟩
  · rcases hts : enumerate_tables w u with _ | ⟨n, ns⟩ <;>
      simp [refresh, refreshGo, h1, h2, h3, h4, hts, insertLoop]
  · intro hts
    simp [refresh, refreshGo, h1, h2, h3, h4, hts, insertLoop]
  · intro n ns hts
    simp [refresh, refreshGo, h1, h2, h3, h4, hts, insertLoop]

/-- Witness for C4 at a source enumerating one table: the batch aborts with
MissingDataSourceRecord. -/
theorem c4_witness :
    refresh ⟨[("sales", ⟨"postgres://h/x"⟩)], []⟩ ⟨[("postgres://h/x", ["a"])]⟩
        0 ["sales"] ⟨[], []⟩
      = (⟨[], []⟩, [("postgres://h/x", false)], .exn .missingDataSourceRecord) :=
  (c4_missing_record_behaviour ⟨[("sales", ⟨"postgres://h/x"⟩)], []⟩
    ⟨[("postgres://h/x", ["a"])]⟩ 0 "sales" ⟨[], []⟩
    ⟨"sales", "database", "postgres", some []⟩ "postgres://h/x"
    rfl rfl rfl rfl).2.2 "a" [] rfl

/-! ## C7 -/

/-- C7 evidence: when the per-table insert loop fails partway (here at its
first iteration, the MissingDataSourceRecord dereference), the connection
opened for that label is never closed — `conn.close()` sits after the loop
with no try/finally — and the batch aborts before the next label. The
connection log records the connection with closed = false. -/
theorem c7_connection_left_open_on_loop_failure :
    refresh ⟨[("sales", ⟨"postgres://h/x"⟩)], []⟩ ⟨[("postgres://h/x", ["a"])]⟩
        0 ["sales", "m2"] ⟨[⟨1, "m2"⟩], []⟩
      = (⟨[⟨1, "m2"⟩], []⟩, [("postgres://h/x", false)],
         .exn .missingDataSourceRecord) := by
  decide

/-! ## C10 -/

/-- The first registry descriptor labelled `L` is the database row of the
first `settings.DATABASES` entry keyed `L`, whenever one exists. -/
theorem registry_filter_head_of_db_lookup (l : List (String × DbEntry))
    (L : String) (e : DbEntry) (h : l.lookup L = some e) :
    ((l.map dbDescriptor).filter (fun d => d.label = L)).head?
      = some ⟨L, "database", urlScheme e.db_url, some []⟩ := by
  induction l with
  | nil => simp [List.lookup] at h
  | cons p t ih =>
    rcases p with ⟨k, v⟩
    by_cases hk : L = k
    · subst hk
      rw [List.lookup] at h
      simp at h
      subst h
      simp [dbDescriptor]
    · have hb : (L == k) = false := beq_eq_false_iff_ne.mpr hk
      simp [List.lookup, hb] at h
      have hne : (dbDescriptor (k, v)).label ≠ L := by
        simp [dbDescriptor]
        exact fun hh => hk hh.symm
      rw [List.map_cons, List.filter_cons_of_neg]
      · exact ih h
      · simp [hne]

/-- Counterexample to C10 as stated: the label `"dwata_meta"` occurring both
as a Database-section key (with a postgres URL) and in a configured service
section resolves to the hardcoded system database descriptor, not to the
Database section's entry. -/
theorem c10_counterexample :
    (([("dwata_meta", (⟨"postgres://h/x"⟩ : DbEntry))] :
        List (String × DbEntry)).lookup "dwata_meta"
      = some ⟨"postgres://h/x"⟩) ∧
    (([("dwata_meta", "cfg")] : List (String × String)).lookup "dwata_meta"
      = some "cfg") ∧
    get_source_settings
        (some ⟨[("dwata_meta", ⟨"postgres://h/x"⟩)],
          [("superset", [("dwata_meta", "cfg")])]⟩) "dwata_meta"
      ≠ .ok (.db ⟨"postgres://h/x"⟩) := by
  decide

/-- C10 amended: for every label other than `"dwata_meta"` that occurs as a
key of the Database section — in particular when it also occurs in a
configured service section — `get_source_settings` returns the Database
section's entry: database rows precede service rows in the registry and
resolution takes the first matching descriptor. -/
theorem c10_database_section_wins (settings : Settings) (L : String)
    (e : DbEntry) (sec : String × List (String × String)) (v : String)
    (hne : L ≠ "dwata_meta")
    (hdb : settings.databases.lookup L = some e)
    (hsec : sec ∈ settings.services) (hv : sec.2.lookup L = some v) :
    get_source_settings (some settings) L = .ok (.db e) := by
  have hh := registry_filter_head_of_db_lookup settings.databases L e hdb
  have hfull : ((get_all_sources settings).filter
      (fun x => x.label = L)).head?
      = some ⟨L, "database", urlScheme e.db_url, some []⟩ := by
    rcases hcons : (settings.databases.map dbDescriptor).filter
        (fun d => d.label = L) with _ | ⟨a, as⟩
    · rw [hcons] at hh
      simp at hh
    · rw [hcons] at hh
      simp at hh
      subst hh
      rw [get_all_sources, List.filter_append, List.filter_append, hcons]
      rfl
  simp [get_source_settings, hne, hfull, hdb]

/-- Witness for C10: a label configured both as a database and as a service
entry resolves to the database connection settings. -/
theorem c10_witness :
    get_source_settings
        (some ⟨[("x", ⟨"postgres://h/x"⟩)], [("superset", [("x", "cfg")])]⟩)
        "x"
      = .ok (.db ⟨"postgres://h/x"⟩) :=
  c10_database_section_wins
    ⟨[("x", ⟨"postgres://h/x"⟩)], [("superset", [("x", "cfg")])]⟩
    "x" ⟨"postgres://h/x"⟩ ("superset", [("x", "cfg")]) "cfg"
    (by decide) rfl (by decide) rfl
